import Mathlib

/-!
Shallow embedding of `src/server/src/services/openai.ts` (OpenAIService).

JavaScript values parsed from JSON are modelled by `JVal`; the absent value
`undefined` is modelled by `Option JVal` (`none` = `undefined`).  JavaScript
numbers are modelled by `ℚ`, with `NaN` modelled as `none : Option ℚ`
(`JSON.parse` never produces `NaN`, and the only `NaN`s arising in the
service come from `Number(x)` coercions, which we model by `jsNumber`).
-/

namespace Calo

/-- JSON-like value as produced by `JSON.parse`. -/
inductive JVal where
  | null : JVal
  | bool : Bool → JVal
  | num : ℚ → JVal
  | str : String → JVal
  | arr : List JVal → JVal
  | obj : List (String × JVal) → JVal

/-- Property lookup `v[k]`.  On an object the last binding wins (as in
`JSON.parse` for duplicate keys); on numbers, strings, booleans and arrays the
properties used by the service are absent, so lookup yields `undefined`
(`none`).  In JavaScript, property access on `null` throws a `TypeError`;
theorems therefore carry a `≠ JVal.null` hypothesis where that matters. -/
def JVal.get (v : JVal) (k : String) : Option JVal :=
  match v with
  | .obj l => l.reverse.lookup k
  | _ => none

/-- JavaScript truthiness of a defined value (`[]` and `\x7b\x7d` are truthy). -/
def JVal.truthy : JVal → Bool
  | .null => false
  | .bool b => b
  | .num q => q ≠ 0
  | .str s => s ≠ ""
  | .arr _ => true
  | .obj _ => true

/-- Whether a value is JavaScript `null` (property access on it throws). -/
def JVal.isNull : JVal → Bool
  | .null => true
  | _ => false

/-- The expression `a || b` on possibly-undefined values: `a` when defined and
truthy, otherwise `b`. -/
def jor (a b : Option JVal) : Option JVal :=
  match a with
  | some v => if v.truthy then some v else b
  | none => b

/-- The expression `a || d` with a defined default `d`. -/
def jorD (a : Option JVal) (d : JVal) : JVal :=
  match a with
  | some v => if v.truthy then v else d
  | none => d

/-- The expression `a || undefined`: keeps `a` when defined and truthy. -/
def jorU (a : Option JVal) : Option JVal :=
  match a with
  | some v => if v.truthy then some v else none
  | none => none

/-- Decimal value of a digit list (most significant first). -/
def digitsVal (l : List Char) : ℕ :=
  l.foldl (fun a c => 10 * a + (c.toNat - 48)) 0

/-- Parse the part of a JavaScript numeric string after an optional sign:
digits with at most one decimal point (`"5"`, `"5."`, `".5"`, `"1.25"`). -/
def parseDecimal (l : List Char) : Option ℚ :=
  let p := l.span Char.isDigit
  match p.2 with
  | [] => if p.1 = [] then none else some (digitsVal p.1)
  | '.' :: fp =>
      if fp.all Char.isDigit && !(p.1 = [] && fp = []) then
        some ((digitsVal p.1 : ℚ) + (digitsVal fp : ℚ) / (10 ^ fp.length))
      else none
  | _ => none

/-- Characters trimmed by JavaScript string-to-number conversion. -/
def isJsSpace (c : Char) : Bool :=
  c = ' ' || c = '\t' || c = '\n' || c = '\r'

/-- Model of `Number(s)` for a string `s`: trimmed empty string is `0`, plain
decimal numerals (with optional sign) are parsed, anything else is `NaN`
(`none`).  Exotic forms (`"0x10"`, exponents, `"Infinity"`) are out of scope of
the claims and modelled as `NaN`. -/
def parseNumStr (s : String) : Option ℚ :=
  let l := ((s.data.dropWhile isJsSpace).reverse.dropWhile isJsSpace).reverse
  match l with
  | [] => some 0
  | '-' :: t => (parseDecimal t).map Neg.neg
  | '+' :: t => parseDecimal t
  | t => parseDecimal t

/-- Model of `Number(x)` for a possibly-undefined value: `Number(undefined)`
and `Number` of an object are `NaN` (`none`); `Number(null) = 0`;
booleans map to `0`/`1`; one-element arrays of a number coerce to that number,
the empty array to `0`, other arrays to `NaN`. -/
def jsNumber : Option JVal → Option ℚ
  | none => none
  | some .null => some 0
  | some (.bool b) => some (if b then 1 else 0)
  | some (.num q) => some q
  | some (.str s) => parseNumStr s
  | some (.arr []) => some 0
  | some (.arr [.num q]) => some q
  | some (.arr _) => none
  | some (.obj _) => none

/-- The pattern `Number(x) || d`: `NaN` and `0` are falsy, so a `NaN` result
or a zero result is replaced by the default `d`. -/
def numOrD (o : Option ℚ) (d : ℚ) : ℚ :=
  match o with
  | none => d
  | some q => if q = 0 then d else q

/-- The pattern `Number(x) || undefined`: a `NaN` or zero result becomes
`undefined`, any other number is kept. -/
def numOrUndef (o : Option ℚ) : Option ℚ :=
  match o with
  | none => none
  | some q => if q = 0 then none else some q

/-- One normalized ingredient record (lines 331–356 of the source). -/
structure Ingredient where
  name : JVal
  calories : ℚ
  protein : ℚ
  carbs : ℚ
  fat : ℚ
  fiber : ℚ
  sugar : ℚ
  sodium_mg : ℚ
  cholesterol_mg : ℚ
  saturated_fats_g : ℚ
  polyunsaturated_fats_g : ℚ
  monounsaturated_fats_g : ℚ
  omega_3_g : ℚ
  omega_6_g : ℚ
  soluble_fiber_g : ℚ
  insoluble_fiber_g : ℚ
  alcohol_g : ℚ
  caffeine_mg : ℚ
  serving_size_g : ℚ
  glycemic_index : JVal
  insulin_index : JVal
  vitamins_json : JVal
  micronutrients_json : JVal
  allergens_json : JVal

/-- The normalized meal record (`MealAnalysisResult`), with the fields in the
shape `normalizeAnalysisResult` fills (lines 317–388 of the source).
String-typed fields of the TypeScript interface are modelled as `JVal`
because the JavaScript code copies whatever truthy value the reply held. -/
structure MealAnalysisResult where
  name : JVal
  description : JVal
  calories : ℚ
  protein : ℚ
  carbs : ℚ
  fat : ℚ
  fiber : ℚ
  sugar : ℚ
  sodium : ℚ
  confidence : ℚ
  ingredients : List Ingredient
  cooking_method : JVal
  food_category : JVal
  recommendations : JVal
  servingSize : JVal
  cookingMethod : JVal
  healthNotes : JVal
  saturated_fats_g : Option ℚ
  polyunsaturated_fats_g : Option ℚ
  monounsaturated_fats_g : Option ℚ
  omega_3_g : Option ℚ
  omega_6_g : Option ℚ
  soluble_fiber_g : Option ℚ
  insoluble_fiber_g : Option ℚ
  cholesterol_mg : Option ℚ
  alcohol_g : Option ℚ
  caffeine_mg : Option ℚ
  liquids_ml : Option ℚ
  serving_size_g : Option ℚ
  allergens_json : JVal
  vitamins_json : JVal
  micronutrients_json : JVal
  glycemic_index : Option JVal
  insulin_index : Option JVal
  processing_level : JVal
  additives_json : JVal
  health_risk_notes : Option JVal

/-- Normalization of one element of the reply's `ingredients` array
(the arrow function at lines 331–356 of the source). -/
def normalizeIngredient (isHebrew : Bool) (ing : JVal) : Ingredient :=
  { name := jorD (ing.get "name")
      (.str (if isHebrew then "מרכיב לא מזוהה" else "Unknown ingredient"))
    calories := numOrD (jsNumber (ing.get "calories")) 0
    protein := numOrD (jsNumber (jor (ing.get "protein") (ing.get "protein_g"))) 0
    carbs := numOrD (jsNumber (jor (ing.get "carbs") (ing.get "carbs_g"))) 0
    fat := numOrD (jsNumber (jor (ing.get "fat") (ing.get "fats_g"))) 0
    fiber := numOrD (jsNumber (jor (ing.get "fiber") (ing.get "fiber_g"))) 0
    sugar := numOrD (jsNumber (jor (ing.get "sugar") (ing.get "sugar_g"))) 0
    sodium_mg := numOrD (jsNumber (jor (ing.get "sodium_mg") (ing.get "sodium"))) 0
    cholesterol_mg := numOrD (jsNumber (ing.get "cholesterol_mg")) 0
    saturated_fats_g := numOrD (jsNumber (ing.get "saturated_fats_g")) 0
    polyunsaturated_fats_g := numOrD (jsNumber (ing.get "polyunsaturated_fats_g")) 0
    monounsaturated_fats_g := numOrD (jsNumber (ing.get "monounsaturated_fats_g")) 0
    omega_3_g := numOrD (jsNumber (ing.get "omega_3_g")) 0
    omega_6_g := numOrD (jsNumber (ing.get "omega_6_g")) 0
    soluble_fiber_g := numOrD (jsNumber (ing.get "soluble_fiber_g")) 0
    insoluble_fiber_g := numOrD (jsNumber (ing.get "insoluble_fiber_g")) 0
    alcohol_g := numOrD (jsNumber (ing.get "alcohol_g")) 0
    caffeine_mg := numOrD (jsNumber (ing.get "caffeine_mg")) 0
    serving_size_g := numOrD (jsNumber (ing.get "serving_size_g")) 0
    glycemic_index := jorD (ing.get "glycemic_index") .null
    insulin_index := jorD (ing.get "insulin_index") .null
    vitamins_json := jorD (ing.get "vitamins_json") (.obj [])
    micronutrients_json := jorD (ing.get "micronutrients_json") (.obj [])
    allergens_json := jorD (ing.get "allergens_json") (.obj []) }

/-- The record built by `normalizeAnalysisResult` (lines 317–388 of the
source), before the ingredient-total validation. -/
def normalizeFields (result : JVal) (isHebrew : Bool) : MealAnalysisResult :=
  { name := jorD (result.get "name")
      (.str (if isHebrew then "ארוחה לא מזוהה" else "Unknown meal"))
    description := jorD (result.get "description") (.str "")
    calories := numOrD (jsNumber (result.get "calories")) 0
    protein := numOrD (jsNumber (result.get "protein")) 0
    carbs := numOrD (jsNumber (result.get "carbs")) 0
    fat := numOrD (jsNumber (result.get "fat")) 0
    fiber := numOrD (jsNumber (result.get "fiber")) 0
    sugar := numOrD (jsNumber (result.get "sugar")) 0
    sodium := numOrD (jsNumber (result.get "sodium")) 0
    confidence := numOrD (jsNumber (result.get "confidence")) 75
    ingredients :=
      match result.get "ingredients" with
      | some (.arr l) => l.map (normalizeIngredient isHebrew)
      | _ => []
    cooking_method := jorD (jor (result.get "cooking_method") (result.get "cookingMethod")) (.str "")
    food_category := jorD (jor (result.get "food_category") (result.get "foodCategory")) (.str "")
    recommendations := jorD (jor (result.get "recommendations") (result.get "healthNotes")) (.str "")
    servingSize := jorD (jor (result.get "serving_size") (result.get "servingSize")) (.str "1 serving")
    cookingMethod := jorD (jor (result.get "cooking_method") (result.get "cookingMethod")) (.str "")
    healthNotes := jorD (jor (result.get "recommendations") (result.get "health_notes")) (.str "")
    saturated_fats_g := numOrUndef (jsNumber (result.get "saturated_fats_g"))
    polyunsaturated_fats_g := numOrUndef (jsNumber (result.get "polyunsaturated_fats_g"))
    monounsaturated_fats_g := numOrUndef (jsNumber (result.get "monounsaturated_fats_g"))
    omega_3_g := numOrUndef (jsNumber (result.get "omega_3_g"))
    omega_6_g := numOrUndef (jsNumber (result.get "omega_6_g"))
    soluble_fiber_g := numOrUndef (jsNumber (result.get "soluble_fiber_g"))
    insoluble_fiber_g := numOrUndef (jsNumber (result.get "insoluble_fiber_g"))
    cholesterol_mg := numOrUndef (jsNumber (result.get "cholesterol_mg"))
    alcohol_g := numOrUndef (jsNumber (result.get "alcohol_g"))
    caffeine_mg := numOrUndef (jsNumber (result.get "caffeine_mg"))
    liquids_ml := numOrUndef (jsNumber (result.get "liquids_ml"))
    serving_size_g := numOrUndef (jsNumber (result.get "serving_size_g"))
    allergens_json := jorD (result.get "allergens_json") (.obj [])
    vitamins_json := jorD (result.get "vitamins_json") (.obj [])
    micronutrients_json := jorD (result.get "micronutrients_json") (.obj [])
    glycemic_index := jorU (result.get "glycemic_index")
    insulin_index := jorU (result.get "insulin_index")
    processing_level := jorD (result.get "processing_level") (.str "")
    additives_json := jorD (result.get "additives_json") (.obj [])
    health_risk_notes := jorU (result.get "health_risk_notes") }

/-- The `reduce` at lines 392–400 of the source: sums of ingredient calories,
protein, carbs and fat. -/
def ingredientTotals (l : List Ingredient) : ℚ × ℚ × ℚ × ℚ :=
  l.foldl
    (fun acc i =>
      (acc.1 + i.calories, acc.2.1 + i.protein, acc.2.2.1 + i.carbs, acc.2.2.2 + i.fat))
    (0, 0, 0, 0)

/-- Full `normalizeAnalysisResult` (lines 312–414): builds the record, then
checks whether the summed ingredient calories deviate from the meal total by
more than 20 percent of the total.  The second component records whether the
(non-fatal) `console.warn` fires; the returned record is the first component
either way. -/
def normalizeAnalysisResult (result : JVal) (isHebrew : Bool) :
    MealAnalysisResult × Bool :=
  let normalized := normalizeFields result isHebrew
  let warn :=
    if normalized.ingredients.length > 0 then
      let totals := ingredientTotals normalized.ingredients
      let caloriesDiff := |totals.1 - normalized.calories|
      decide (caloriesDiff > normalized.calories * 0.2)
    else false
  (normalized, warn)

/-- Rendering of a JavaScript number in template literals and `JSON.stringify`.
Integers render exactly; for non-integers we fall back to the rational
representation (an approximation of JavaScript float printing; no claim
inspects these strings). -/
def ratToJsString (q : ℚ) : String :=
  if q.den = 1 then toString q.num else toString q

mutual

/-- Model of `String(v)` / template-literal interpolation for a defined value. -/
def jsToString : JVal → String
  | .null => "null"
  | .bool b => cond b "true" "false"
  | .num q => ratToJsString q
  | .str s => s
  | .arr l => jsToStringArr l
  | .obj _ => "[object Object]"

/-- Array-to-string: `Array.prototype.join` with commas, where a `null`
element renders as the empty string. -/
def jsToStringArr : List JVal → String
  | [] => ""
  | [v] => jsToStringElem v
  | v :: t => jsToStringElem v ++ "," ++ jsToStringArr t

/-- One array element under `join`: `null` becomes empty. -/
def jsToStringElem : JVal → String
  | .null => ""
  | v => jsToString v

end

/-- Template interpolation of a possibly-undefined value: `undefined` renders
as the string `"undefined"`. -/
def jsToStringU : Option JVal → String
  | none => "undefined"
  | some v => jsToString v

/-- Lower-case hexadecimal digit. -/
def hexDigit (n : ℕ) : Char :=
  if n < 10 then Char.ofNat (48 + n) else Char.ofNat (87 + n)

/-- JSON string escaping of one character, as `JSON.stringify` does. -/
def jsonEscapeChar (c : Char) : String :=
  if c = '"' then "\\\""
  else if c = '\\' then "\\\\"
  else if c = '\n' then "\\n"
  else if c = '\r' then "\\r"
  else if c = '\t' then "\\t"
  else if c.toNat < 32 then
    "\\u00" ++ String.mk [hexDigit (c.toNat / 16), hexDigit (c.toNat % 16)]
  else String.singleton c

/-- JSON string escaping, as `JSON.stringify` does. -/
def jsonEscape (s : String) : String :=
  String.join (s.data.map jsonEscapeChar)

/-- A run of `n` spaces. -/
def indentStr (n : ℕ) : String :=
  String.mk (List.replicate n ' ')

mutual

/-- Model of `JSON.stringify(v, null, 2)` at nesting level `lvl`. -/
def jsonStringify (lvl : ℕ) : JVal → String
  | .null => "null"
  | .bool b => cond b "true" "false"
  | .num q => ratToJsString q
  | .str s => "\"" ++ jsonEscape s ++ "\""
  | .arr [] => "[]"
  | .arr l =>
      "[\n" ++ String.intercalate ",\n" (jsonStringifyArr (lvl + 1) l) ++
        "\n" ++ indentStr (2 * lvl) ++ "]"
  | .obj [] => "\x7b\x7d"
  | .obj l =>
      "\x7b\n" ++ String.intercalate ",\n" (jsonStringifyObj (lvl + 1) l) ++
        "\n" ++ indentStr (2 * lvl) ++ "\x7d"

/-- Stringify the elements of an array, each on its own indented line. -/
def jsonStringifyArr (lvl : ℕ) : List JVal → List String
  | [] => []
  | v :: t => (indentStr (2 * lvl) ++ jsonStringify lvl v) :: jsonStringifyArr lvl t

/-- Stringify the members of an object, each on its own indented line. -/
def jsonStringifyObj (lvl : ℕ) : List (String × JVal) → List String
  | [] => []
  | (k, v) :: t =>
      (indentStr (2 * lvl) ++ "\"" ++ jsonEscape k ++ "\": " ++ jsonStringify lvl v) ::
        jsonStringifyObj lvl t

end

/-- The Hebrew branch of `buildAnalysisPrompt` (lines 186–221 of the source). -/
def analysisPromptHebrew : String :=
  "אתה מומחה תזונה מקצועי המנתח תמונות של ארוחות. נתח את התמונה ותחזיר JSON מדויק עם המידע הבא:\n\n\x7b\n  \"name\": \"שם הארוחה בעברית\",\n  \"description\": \"תיאור קצר של הארוחה\",\n  \"calories\": מספר_קלוריות_כולל,\n  \"protein\": מספר_גרמי_חלבון,\n  \"carbs\": מספר_גרמי_פחמימות,\n  \"fat\": מספר_גרמי_שומן,\n  \"fiber\": מספר_גרמי_סיבים,\n  \"sugar\": מספר_גרמי_סוכר,\n  \"sodium\": מספר_מיליגרם_נתרן,\n  \"ingredients\": [\n    \x7b\n      \"name\": \"שם המרכיב בעברית\",\n      \"calories\": מספר_קלוריות,\n      \"protein\": מספר_גרמי_חלבון,\n      \"carbs\": מספר_גרמי_פחמימות,\n      \"fat\": מספר_גרמי_שומן,\n      \"fiber\": מספר_גרמי_סיבים,\n      \"sugar\": מספר_גרמי_סוכר,\n      \"sodium_mg\": מספר_מיליגרם_נתרן\n    \x7d\n  ],\n  \"cooking_method\": \"שיטת_הכנה\",\n  \"food_category\": \"קטגוריית_מזון\",\n  \"confidence\": מספר_בין_0_ל_100,\n  \"recommendations\": \"המלצות_בריאותיות_והערות\"\n\x7d\n\nחשוב:\n- זהה כל מרכיב בנפרד עם ערכים תזונתיים מדויקים\n- חשב ערכים תזונתיים על בסיס כמויות מוערכות\n- תן ערכים מספריים בלבד (לא טקסט)\n- ודא שסכום המרכיבים תואם לסך הכולל\n- השתמש בשמות עבריים למרכיבים"

/-- The English branch of `buildAnalysisPrompt` (lines 224–259 of the source). -/
def analysisPromptEnglish : String :=
  "You are a professional nutrition expert analyzing meal images. Analyze the image and return accurate JSON with this information:\n\n\x7b\n  \"name\": \"meal_name_in_english\",\n  \"description\": \"brief_meal_description\",\n  \"calories\": total_calories_number,\n  \"protein\": total_protein_grams,\n  \"carbs\": total_carbs_grams,\n  \"fat\": total_fat_grams,\n  \"fiber\": total_fiber_grams,\n  \"sugar\": total_sugar_grams,\n  \"sodium\": total_sodium_milligrams,\n  \"ingredients\": [\n    \x7b\n      \"name\": \"ingredient_name\",\n      \"calories\": calories_number,\n      \"protein\": protein_grams,\n      \"carbs\": carbs_grams,\n      \"fat\": fat_grams,\n      \"fiber\": fiber_grams,\n      \"sugar\": sugar_grams,\n      \"sodium_mg\": sodium_milligrams\n    \x7d\n  ],\n  \"cooking_method\": \"cooking_method\",\n  \"food_category\": \"food_category\",\n  \"confidence\": confidence_0_to_100,\n  \"recommendations\": \"health_recommendations_and_notes\"\n\x7d\n\nImportant:\n- Identify each ingredient separately with accurate nutritional values\n- Calculate nutritional values based on estimated quantities\n- Provide only numeric values (no text)\n- Ensure ingredient totals match overall totals\n- Be precise with portion estimates"

/-- Language selection: `buildAnalysisPrompt(isHebrew)` returns the Hebrew
prompt exactly when `isHebrew` holds (lines 184–260 of the source). -/
def buildAnalysisPrompt (isHebrew : Bool) : String :=
  if isHebrew then analysisPromptHebrew else analysisPromptEnglish

/-- Truthiness of the optional `updateText` argument: a present, non-empty
string. -/
def updateTruthy (u : Option String) : Bool :=
  match u with
  | some s => s ≠ ""
  | none => false

/-- The guard `editedIngredients && editedIngredients.length > 0`. -/
def editedNonempty (e : Option (List JVal)) : Bool :=
  match e with
  | some l => l.length > 0
  | none => false

/-- Model of `buildUpdateContext` (lines 262–290 of the source). -/
def buildUpdateContext (updateText : Option String) (editedIngredients : Option (List JVal))
    (isHebrew : Bool) : String :=
  let context := if isHebrew then "\n\nהקשר נוסף:\n" else "\n\nAdditional context:\n"
  let context := context ++
    (if updateTruthy updateText then
      (if isHebrew then
        "- המשתמש הוסיף הערה: \"" ++ updateText.getD "" ++ "\"\n"
      else
        "- User provided feedback: \"" ++ updateText.getD "" ++ "\"\n")
    else "")
  let context := context ++
    (if editedNonempty editedIngredients then
      (if isHebrew then
        "- המשתמש ערך " ++ toString (editedIngredients.getD []).length ++ " מרכיבים:\n"
      else
        "- User edited " ++ toString (editedIngredients.getD []).length ++ " ingredients:\n") ++
      String.join ((editedIngredients.getD []).enum.map fun p =>
        "  " ++ toString (p.1 + 1) ++ ". " ++ jsToStringU (p.2.get "name") ++ ": " ++
          jsToStringU (p.2.get "calories") ++ " cal, " ++
          jsToStringU (p.2.get "protein") ++ "g protein\n")
    else "")
  context ++
    (if isHebrew then "\nאנא התחשב במידע זה בעת עדכון הניתוח."
     else "\nPlease incorporate this information when updating the analysis.")

/-- Model of `buildUpdatePrompt` (lines 292–310 of the source). -/
def buildUpdatePrompt (originalAnalysis : JVal) (updateText : String) (isHebrew : Bool) : String :=
  let basePrompt :=
    if isHebrew then "אתה מומחה תזונה המעדכן ניתוח ארוחה קיים על בסיס משוב מהמשתמש."
    else "You are a nutrition expert updating an existing meal analysis based on user feedback."
  let originalData :=
    if isHebrew then "\n\nניתוח מקורי:\n" ++ jsonStringify 0 originalAnalysis
    else "\n\nOriginal analysis:\n" ++ jsonStringify 0 originalAnalysis
  let updateInstruction :=
    if isHebrew then
      "\n\nמשוב מהמשתמש: \"" ++ updateText ++
        "\"\n\nאנא עדכן את הניתוח בהתאם למשוב והחזר JSON מעודכן באותו פורמט."
    else
      "\n\nUser feedback: \"" ++ updateText ++
        "\"\n\nPlease update the analysis according to the feedback and return updated JSON in the same format."
  basePrompt ++ originalData ++ updateInstruction

/-- Process configuration visible to the service: `process.env.OPENAI_API_KEY`
(`none` when unset; the empty string is falsy in the guard). -/
structure Config where
  apiKey : Option String

/-- The guard at the top of every operation: `!openai ||
!process.env.OPENAI_API_KEY` fails exactly when the key is unset or empty
(the module-level `openai` handle is `null` under the same condition). -/
def configured (c : Config) : Bool :=
  match c.apiKey with
  | some s => s ≠ ""
  | none => false

/-- A thrown JavaScript value: an `Error` with its message, or any other
thrown value (for the `error instanceof Error` test). -/
inductive JSErr where
  | err (msg : String)
  | nonErr
deriving DecidableEq

/-- One part of a chat message: plain text, or an inline image URL with its
detail setting. -/
inductive MsgPart where
  | text (s : String)
  | imageUrl (url : String) (detail : String)

/-- One chat message of an outbound request. -/
structure Message where
  role : String
  content : List MsgPart

/-- One outbound chat-completion request, with the tuning parameters the
service sets per call type. -/
structure ChatRequest where
  model : String
  messages : List Message
  maxTokens : ℕ
  temperature : ℚ

/-- Outcome of the one remote call: a response whose extracted
`choices[0]?.message?.content` is `content` (`none` when absent), or a thrown
provider error. -/
inductive RemoteOutcome where
  | success (content : Option String)
  | failure (e : JSErr)

/-- Result of one public operation: the value returned or error thrown, plus
the list of chat requests sent over the network during the call. -/
structure CallResult (α : Type) where
  result : Except JSErr α
  sent : List ChatRequest

/-- The computation `language === "hebrew"` performed by both analysis
operations. -/
def isHebrewLang (language : String) : Bool :=
  language == "hebrew"

/-- Truthiness of the extracted response content: the `if (!content)` guard
fails a missing content and an empty string alike. -/
def contentTruthy : Option String → Bool
  | none => false
  | some s => s ≠ ""

/-- Whether the first character list leads the second one. -/
def leadsWith : List Char → List Char → Bool
  | [], _ => true
  | _ :: _, [] => false
  | a :: as, b :: bs => a = b && leadsWith as bs

/-- Whether the first character list occurs contiguously in the second. -/
def occursIn (needle : List Char) : List Char → Bool
  | [] => leadsWith needle []
  | b :: bs => leadsWith needle (b :: bs) || occursIn needle bs

/-- Substring test used on provider error messages
(`error.message.includes(...)`). -/
def substr (needle hay : String) : Bool :=
  occursIn needle.data hay.data

/-- The catch block of `analyzeMealImage` (lines 94–108 of the source): maps
a thrown value to one of four user-facing messages by substring matching; a
non-`Error` value falls through to the generic message. -/
def translateAnalysisError : JSErr → String
  | .err msg =>
      if substr "quota" msg then
        "AI analysis quota exceeded. Please try again later."
      else if substr "rate limit" msg then
        "Too many requests. Please wait a moment and try again."
      else if substr "invalid_request_error" msg then
        "Invalid image format. Please try a different image."
      else
        "AI analysis failed. Please try again."
  | .nonErr => "AI analysis failed. Please try again."

/-- System prompt of a fresh analysis: the language-selected base prompt,
with the update context appended when `updateText` is truthy or edited
ingredients are present (lines 31–36 of the source). -/
def analysisSystemPrompt (isHebrew : Bool) (updateText : Option String)
    (editedIngredients : Option (List JVal)) : String :=
  let base := buildAnalysisPrompt isHebrew
  if updateTruthy updateText || editedNonempty editedIngredients then
    base ++ buildUpdateContext updateText editedIngredients isHebrew
  else base

/-- User-message text of a fresh analysis (lines 46–51 of the source). -/
def analysisUserText (updateText : Option String)
    (editedIngredients : Option (List JVal)) : String :=
  if updateTruthy updateText then
    "Please analyze this meal image and incorporate the following user feedback: \"" ++
      updateText.getD "" ++ "\". " ++
      (if editedNonempty editedIngredients then
        "The user has also provided " ++ toString (editedIngredients.getD []).length ++
          " edited ingredients."
      else "")
  else
    "Please analyze this meal image and provide detailed nutritional information."

/-- The request sent by `analyzeMealImage` (lines 38–70 of the source):
system prompt plus a user message holding the instruction text and the
image as a high-detail inline data URL; `max_tokens` 2000, temperature 0.1. -/
def analyzeRequest (isHebrew : Bool) (imageBase64 : String) (updateText : Option String)
    (editedIngredients : Option (List JVal)) : ChatRequest :=
  { model := "gpt-4o"
    messages :=
      [⟨"system", [.text (analysisSystemPrompt isHebrew updateText editedIngredients)]⟩,
       ⟨"user",
        [.text (analysisUserText updateText editedIngredients),
         .imageUrl ("data:image/jpeg;base64," ++ imageBase64) "high"]⟩]
    maxTokens := 2000
    temperature := 0.1 }

/-- The request sent by `updateMealAnalysis` (lines 127–141 of the source):
`max_tokens` 1500, temperature 0.1. -/
def updateRequest (originalAnalysis : JVal) (updateText : String) (isHebrew : Bool) :
    ChatRequest :=
  { model := "gpt-4o"
    messages :=
      [⟨"system", [.text (buildUpdatePrompt originalAnalysis updateText isHebrew)]⟩,
       ⟨"user",
        [.text ("Please update the meal analysis based on this feedback: \"" ++
          updateText ++ "\"")]⟩]
    maxTokens := 1500
    temperature := 0.1 }

/-- The request sent by `generateText` (lines 165–175 of the source):
caller-chosen `max_tokens`, temperature 0.7. -/
def generateRequest (prompt : String) (maxTokens : ℕ) : ChatRequest :=
  { model := "gpt-4o"
    messages := [⟨"user", [.text prompt]⟩]
    maxTokens := maxTokens
    temperature := 0.7 }

/-- The shared body of both analysis operations inside their `try` blocks,
after the request is built: consult the provider, fail with the
empty-response error when no text content comes back, otherwise run the
external `extractCleanJSON` + `JSON.parse` step (the `parse` parameter, an
external collaborator whose thrown message is the error string) and normalize
the parsed reply.  Errors here are the raw thrown values, before each
operation's own catch block translates them. -/
def runAnalysisPipeline (remote : ChatRequest → RemoteOutcome)
    (parse : String → Except String JVal) (req : ChatRequest) (isHebrew : Bool) :
    Except JSErr MealAnalysisResult :=
  match remote req with
  | .failure e => .error e
  | .success content =>
      if contentTruthy content then
        match parse (content.getD "") with
        | .error m => .error (.err m)
        | .ok parsed => .ok (normalizeAnalysisResult parsed isHebrew).1
      else .error (.err "No response content from OpenAI")

/-- Model of `OpenAIService.analyzeMealImage` (lines 12–109 of the source).
When no credential is configured the call throws the not-configured error
with no request sent; otherwise one request is sent and any thrown value is
translated by the catch block into a user-facing message. -/
def analyzeMealImage (cfg : Config) (remote : ChatRequest → RemoteOutcome)
    (parse : String → Except String JVal) (imageBase64 : String) (language : String)
    (updateText : Option String) (editedIngredients : Option (List JVal)) :
    CallResult MealAnalysisResult :=
  if configured cfg then
    let isHebrew := isHebrewLang language
    let req := analyzeRequest isHebrew imageBase64 updateText editedIngredients
    match runAnalysisPipeline remote parse req isHebrew with
    | .ok r => ⟨.ok r, [req]⟩
    | .error e => ⟨.error (.err (translateAnalysisError e)), [req]⟩
  else ⟨.error (.err "OpenAI API key not configured"), []⟩

/-- Model of `OpenAIService.updateMealAnalysis` (lines 111–157 of the
source); its catch block maps every thrown value to the single message
"Failed to update meal analysis". -/
def updateMealAnalysis (cfg : Config) (remote : ChatRequest → RemoteOutcome)
    (parse : String → Except String JVal) (originalAnalysis : JVal) (updateText : String)
    (language : String) : CallResult MealAnalysisResult :=
  if configured cfg then
    let isHebrew := isHebrewLang language
    let req := updateRequest originalAnalysis updateText isHebrew
    match runAnalysisPipeline remote parse req isHebrew with
    | .ok r => ⟨.ok r, [req]⟩
    | .error _ => ⟨.error (.err "Failed to update meal analysis"), [req]⟩
  else ⟨.error (.err "OpenAI API key not configured"), []⟩

/-- Model of `OpenAIService.generateText` (lines 159–182 of the source): the
extracted content is returned with `|| ""`, and the catch block re-throws
the provider error unchanged. -/
def generateText (cfg : Config) (remote : ChatRequest → RemoteOutcome)
    (prompt : String) (maxTokens : ℕ) : CallResult String :=
  if configured cfg then
    let req := generateRequest prompt maxTokens
    match remote req with
    | .failure e => ⟨.error e, [req]⟩
    | .success content =>
        ⟨.ok (if contentTruthy content then content.getD "" else ""), [req]⟩
  else ⟨.error (.err "OpenAI API key not configured"), []⟩

/-- The TypeScript default parameter `maxTokens: number = 1000` of
`generateText`. -/
def generateTextDefault (cfg : Config) (remote : ChatRequest → RemoteOutcome)
    (prompt : String) : CallResult String :=
  generateText cfg remote prompt 1000

/-- Helper: `Number(a || b) || 0` returns the numeric value of whichever of
the two aliases is present, when exactly one is present and holds a number. -/
theorem aliasNum (a b : Option JVal) (q : ℚ)
    (h : (a = some (.num q) ∧ b = none) ∨ (a = none ∧ b = some (.num q))) :
    numOrD (jsNumber (jor a b)) 0 = q := by
  rcases h with ⟨ha, hb⟩ | ⟨ha, hb⟩ <;> subst ha <;> subst hb <;>
    by_cases hq : q = 0 <;> simp [jor, JVal.truthy, jsNumber, numOrD, hq]

/-- C1 (corrected): with an empty reply object, the normalized `confidence`
is 75, not 0 as the claim states for every required numeric field. -/
theorem claim_c1_counterexample :
    ¬ ((normalizeFields (JVal.obj []) false).confidence = 0) := by
  rw [show (normalizeFields (JVal.obj []) false).confidence = 75 from rfl]
  norm_num

/-- C1 (amended): normalizeAnalysisResult sets each of the required numeric
fields calories, protein, carbs, fat, fiber, sugar and sodium to 0 when the
corresponding reply field is missing or non-numeric (`Number` gives `NaN`,
modelled as `jsNumber = none`), and sets `confidence` to 75 in the same
situation; no required field is ever `NaN` or `undefined` (they live in `ℚ`
in the embedding).  In JavaScript, property access on a `null` reply throws,
hence the `≠ null` hypothesis. -/
theorem claim_c1 (r : JVal) (hb : Bool) (_hr : r ≠ JVal.null) :
    (jsNumber (r.get "calories") = none → (normalizeFields r hb).calories = 0) ∧
    (jsNumber (r.get "protein") = none → (normalizeFields r hb).protein = 0) ∧
    (jsNumber (r.get "carbs") = none → (normalizeFields r hb).carbs = 0) ∧
    (jsNumber (r.get "fat") = none → (normalizeFields r hb).fat = 0) ∧
    (jsNumber (r.get "fiber") = none → (normalizeFields r hb).fiber = 0) ∧
    (jsNumber (r.get "sugar") = none → (normalizeFields r hb).sugar = 0) ∧
    (jsNumber (r.get "sodium") = none → (normalizeFields r hb).sodium = 0) ∧
    (jsNumber (r.get "confidence") = none → (normalizeFields r hb).confidence = 75) := by
  refine ⟨?_, ?_, ?_, ?_, ?_, ?_, ?_, ?_⟩ <;> intro h
  · show numOrD (jsNumber (r.get "calories")) 0 = 0; rw [h]; rfl
  · show numOrD (jsNumber (r.get "protein")) 0 = 0; rw [h]; rfl
  · show numOrD (jsNumber (r.get "carbs")) 0 = 0; rw [h]; rfl
  · show numOrD (jsNumber (r.get "fat")) 0 = 0; rw [h]; rfl
  · show numOrD (jsNumber (r.get "fiber")) 0 = 0; rw [h]; rfl
  · show numOrD (jsNumber (r.get "sugar")) 0 = 0; rw [h]; rfl
  · show numOrD (jsNumber (r.get "sodium")) 0 = 0; rw [h]; rfl
  · show numOrD (jsNumber (r.get "confidence")) 75 = 75; rw [h]; rfl

/-- Witness for C1: a reply whose `calories` is the non-numeric string
`"abc"` normalizes to 0 calories, and an empty reply gets confidence 75. -/
theorem claim_c1_witness :
    (normalizeFields (JVal.obj [("calories", JVal.str "abc")]) false).calories = 0 ∧
    (normalizeFields (JVal.obj []) true).confidence = 75 :=
  ⟨(claim_c1 (JVal.obj [("calories", JVal.str "abc")]) false
      (fun h => JVal.noConfusion h)).1 rfl,
   (claim_c1 (JVal.obj []) true (fun h => JVal.noConfusion h)).2.2.2.2.2.2.2 rfl⟩

/-- C2 (corrected): a reply that explicitly provides `saturated_fats_g: 0`
normalizes to an absent (`undefined`) extended field, exactly like a reply
that omits the field — the provided zero is not kept and not distinguished
from absence, because `Number(x) || undefined` treats 0 as falsy. -/
theorem claim_c2_counterexample :
    (normalizeFields (JVal.obj [("saturated_fats_g", JVal.num 0)]) false).saturated_fats_g
        = none ∧
    (normalizeFields (JVal.obj []) false).saturated_fats_g = none :=
  ⟨rfl, rfl⟩

/-- C2 (amended): each extended optional nutrient field of the meal record
(shown for saturated_fats_g, omega_3_g, cholesterol_mg, liquids_ml) is left
`undefined` when absent from the reply and keeps the provided numeric value
when it is present and nonzero; a provided zero or non-numeric value also
becomes `undefined`. -/
theorem claim_c2 (r : JVal) (hb : Bool) (q : ℚ) (_hr : r ≠ JVal.null) :
    (r.get "saturated_fats_g" = none → (normalizeFields r hb).saturated_fats_g = none) ∧
    (r.get "saturated_fats_g" = some (.num q) → q ≠ 0 →
      (normalizeFields r hb).saturated_fats_g = some q) ∧
    (r.get "omega_3_g" = none → (normalizeFields r hb).omega_3_g = none) ∧
    (r.get "omega_3_g" = some (.num q) → q ≠ 0 →
      (normalizeFields r hb).omega_3_g = some q) ∧
    (r.get "cholesterol_mg" = none → (normalizeFields r hb).cholesterol_mg = none) ∧
    (r.get "cholesterol_mg" = some (.num q) → q ≠ 0 →
      (normalizeFields r hb).cholesterol_mg = some q) ∧
    (r.get "liquids_ml" = none → (normalizeFields r hb).liquids_ml = none) ∧
    (r.get "liquids_ml" = some (.num q) → q ≠ 0 →
      (normalizeFields r hb).liquids_ml = some q) := by
  refine ⟨?_, ?_, ?_, ?_, ?_, ?_, ?_, ?_⟩
  · intro h; show numOrUndef (jsNumber (r.get "saturated_fats_g")) = none; rw [h]; rfl
  · intro h hq
    show numOrUndef (jsNumber (r.get "saturated_fats_g")) = some q
    rw [h]; simp [jsNumber, numOrUndef, hq]
  · intro h; show numOrUndef (jsNumber (r.get "omega_3_g")) = none; rw [h]; rfl
  · intro h hq
    show numOrUndef (jsNumber (r.get "omega_3_g")) = some q
    rw [h]; simp [jsNumber, numOrUndef, hq]
  · intro h; show numOrUndef (jsNumber (r.get "cholesterol_mg")) = none; rw [h]; rfl
  · intro h hq
    show numOrUndef (jsNumber (r.get "cholesterol_mg")) = some q
    rw [h]; simp [jsNumber, numOrUndef, hq]
  · intro h; show numOrUndef (jsNumber (r.get "liquids_ml")) = none; rw [h]; rfl
  · intro h hq
    show numOrUndef (jsNumber (r.get "liquids_ml")) = some q
    rw [h]; simp [jsNumber, numOrUndef, hq]

/-- Witness for C2: `omega_3_g: 3` is kept as `3`, and an absent
`liquids_ml` stays absent. -/
theorem claim_c2_witness :
    (normalizeFields (JVal.obj [("omega_3_g", JVal.num 3)]) false).omega_3_g = some 3 ∧
    (normalizeFields (JVal.obj []) false).liquids_ml = none :=
  ⟨(claim_c2 (JVal.obj [("omega_3_g", JVal.num 3)]) false 3
      (fun h => JVal.noConfusion h)).2.2.2.1 rfl (by norm_num),
   (claim_c2 (JVal.obj []) false 3 (fun h => JVal.noConfusion h)).2.2.2.2.2.2.1 rfl⟩

/-- C3 (confirmed): when no API credential is configured, each of
analyzeMealImage, updateMealAnalysis and generateText fails with the
"OpenAI API key not configured" error and sends no request, for all other
arguments. -/
theorem claim_c3 (cfg : Config) (remote : ChatRequest → RemoteOutcome)
    (parse : String → Except String JVal) (img lang ut prompt : String)
    (u : Option String) (e : Option (List JVal)) (orig : JVal) (mt : ℕ)
    (hc : configured cfg = false) :
    analyzeMealImage cfg remote parse img lang u e =
      ⟨.error (.err "OpenAI API key not configured"), []⟩ ∧
    updateMealAnalysis cfg remote parse orig ut lang =
      ⟨.error (.err "OpenAI API key not configured"), []⟩ ∧
    generateText cfg remote prompt mt =
      ⟨.error (.err "OpenAI API key not configured"), []⟩ := by
  refine ⟨?_, ?_, ?_⟩ <;>
    simp [analyzeMealImage, updateMealAnalysis, generateText, hc]

/-- Witness for C3: with an unset key, analyzing fails with the
not-configured error and an empty request trace. -/
theorem claim_c3_witness :
    configured ⟨none⟩ = false ∧
    analyzeMealImage ⟨none⟩ (fun _ => .failure .nonErr) (fun _ => .error "") "img"
        "english" none none =
      ⟨.error (.err "OpenAI API key not configured"), []⟩ ∧
    generateText ⟨none⟩ (fun _ => .failure .nonErr) "p" 5 =
      ⟨.error (.err "OpenAI API key not configured"), []⟩ :=
  ⟨rfl,
   (claim_c3 ⟨none⟩ (fun _ => .failure .nonErr) (fun _ => .error "") "img" "english"
      "" "p" none none (JVal.obj []) 5 rfl).1,
   (claim_c3 ⟨none⟩ (fun _ => .failure .nonErr) (fun _ => .error "") "img" "english"
      "" "p" none none (JVal.obj []) 5 rfl).2.2⟩

/-- C4 (corrected): generateText does not translate provider errors into the
fixed user-facing set — it re-raises the provider's error unchanged.  With a
provider that throws "boom", the caller sees "boom", which is none of the
four user-facing messages. -/
theorem claim_c4_counterexample :
    (generateText ⟨some "k"⟩ (fun _ => .failure (.err "boom")) "hi" 1000).result =
      .error (.err "boom") ∧
    "boom" ≠ "AI analysis quota exceeded. Please try again later." ∧
    "boom" ≠ "Too many requests. Please wait a moment and try again." ∧
    "boom" ≠ "Invalid image format. Please try a different image." ∧
    "boom" ≠ "AI analysis failed. Please try again." :=
  ⟨rfl, by decide, by decide, by decide, by decide⟩

/-- C4 (amended): every provider error is caught; analyzeMealImage re-raises
it as one of the four fixed user-facing messages selected by substring
matching, updateMealAnalysis re-raises every error as the single message
"Failed to update meal analysis", and generateText re-raises the provider
error unchanged.  No operation retries: at most one request is ever sent. -/
theorem claim_c4 (cfg : Config) (remote : ChatRequest → RemoteOutcome)
    (parse : String → Except String JVal) (img lang ut prompt : String)
    (u : Option String) (e : Option (List JVal)) (orig : JVal) (mt : ℕ)
    (err : JSErr) (hc : configured cfg = true)
    (hrem : ∀ req, remote req = .failure err) :
    (analyzeMealImage cfg remote parse img lang u e).result =
      .error (.err (translateAnalysisError err)) ∧
    (translateAnalysisError err = "AI analysis quota exceeded. Please try again later." ∨
      translateAnalysisError err = "Too many requests. Please wait a moment and try again." ∨
      translateAnalysisError err = "Invalid image format. Please try a different image." ∨
      translateAnalysisError err = "AI analysis failed. Please try again.") ∧
    (updateMealAnalysis cfg remote parse orig ut lang).result =
      .error (.err "Failed to update meal analysis") ∧
    (generateText cfg remote prompt mt).result = .error err ∧
    (∀ remoteB : ChatRequest → RemoteOutcome,
      (analyzeMealImage cfg remoteB parse img lang u e).sent.length ≤ 1 ∧
      (updateMealAnalysis cfg remoteB parse orig ut lang).sent.length ≤ 1 ∧
      (generateText cfg remoteB prompt mt).sent.length ≤ 1) := by
  refine ⟨?_, ?_, ?_, ?_, ?_⟩
  · simp [analyzeMealImage, hc, runAnalysisPipeline, hrem]
  · cases err with
    | nonErr => right; right; right; rfl
    | err msg =>
        simp only [translateAnalysisError]
        split_ifs <;> tauto
  · simp [updateMealAnalysis, hc, runAnalysisPipeline, hrem]
  · simp [generateText, hc, hrem]
  · intro remoteB
    refine ⟨?_, ?_, ?_⟩ <;>
      simp only [analyzeMealImage, updateMealAnalysis, generateText] <;>
      split <;> first | simp | (split <;> simp)

/-- Witness for C4: a provider failing with "rate limit exceeded" makes
analyzeMealImage raise the translated rate-limit message and makes
generateText re-raise the raw error. -/
theorem claim_c4_witness :
    configured ⟨some "k"⟩ = true ∧
    (analyzeMealImage ⟨some "k"⟩ (fun _ => .failure (.err "rate limit exceeded"))
        (fun _ => .error "") "img" "english" none none).result =
      .error (.err (translateAnalysisError (.err "rate limit exceeded"))) ∧
    (generateText ⟨some "k"⟩ (fun _ => .failure (.err "rate limit exceeded")) "p" 7).result =
      .error (.err "rate limit exceeded") :=
  ⟨rfl,
   (claim_c4 ⟨some "k"⟩ (fun _ => .failure (.err "rate limit exceeded")) (fun _ => .error "")
      "img" "english" "" "p" none none (JVal.obj []) 7 (.err "rate limit exceeded")
      rfl (fun _ => rfl)).1,
   (claim_c4 ⟨some "k"⟩ (fun _ => .failure (.err "rate limit exceeded")) (fun _ => .error "")
      "img" "english" "" "p" none none (JVal.obj []) 7 (.err "rate limit exceeded")
      rfl (fun _ => rfl)).2.2.2.1⟩

/-- C5 (confirmed): when the summed ingredient calories deviate from the
meal-level total by more than 20 percent of that total, normalization sets
the warning flag but the returned record is exactly the normalized record —
no field is corrected or altered because of the mismatch. -/
theorem claim_c5 (r : JVal) (hb : Bool) (_hr : r ≠ JVal.null)
    (hing : (normalizeFields r hb).ingredients.length > 0)
    (hdev : |(ingredientTotals (normalizeFields r hb).ingredients).1 -
        (normalizeFields r hb).calories| > (normalizeFields r hb).calories * 0.2) :
    (normalizeAnalysisResult r hb).2 = true ∧
    (normalizeAnalysisResult r hb).1 = normalizeFields r hb := by
  constructor
  · unfold normalizeAnalysisResult
    simp only []
    rw [if_pos hing]
    exact decide_eq_true hdev
  · rfl

/-- Witness for C5: a reply reporting 100 meal calories with a single
10-calorie ingredient (90 percent deviation) warns but returns the record
unchanged. -/
theorem claim_c5_witness :
    (normalizeAnalysisResult
        (JVal.obj [("calories", JVal.num 100),
          ("ingredients", JVal.arr [JVal.obj [("calories", JVal.num 10)]])]) false).2 = true ∧
    (normalizeAnalysisResult
        (JVal.obj [("calories", JVal.num 100),
          ("ingredients", JVal.arr [JVal.obj [("calories", JVal.num 10)]])]) false).1 =
      normalizeFields
        (JVal.obj [("calories", JVal.num 100),
          ("ingredients", JVal.arr [JVal.obj [("calories", JVal.num 10)]])]) false := by
  refine claim_c5 _ false (fun h => JVal.noConfusion h) (by decide) ?_
  rw [show (normalizeFields
      (JVal.obj [("calories", JVal.num 100),
        ("ingredients", JVal.arr [JVal.obj [("calories", JVal.num 10)]])])
      false).ingredients = [normalizeIngredient false (JVal.obj [("calories", JVal.num 10)])]
    from rfl]
  rw [show (normalizeFields
      (JVal.obj [("calories", JVal.num 100),
        ("ingredients", JVal.arr [JVal.obj [("calories", JVal.num 10)]])])
      false).calories = 100 from rfl]
  rw [show (ingredientTotals [normalizeIngredient false
      (JVal.obj [("calories", JVal.num 10)])]).1 =
      0 + (normalizeIngredient false (JVal.obj [("calories", JVal.num 10)])).calories from rfl]
  rw [show (normalizeIngredient false (JVal.obj [("calories", JVal.num 10)])).calories = 10
    from rfl]
  norm_num

/-- C6 (confirmed): for an ingredient that provides a nutrient under exactly
one of its aliased field names, the normalized canonical field equals the
numeric value of whichever alias is present, for every alias pair the code
merges (protein/protein_g, carbs/carbs_g, fat/fats_g, fiber/fiber_g,
sugar/sugar_g, sodium_mg/sodium). -/
theorem claim_c6 (ing : JVal) (hb : Bool) (q : ℚ) (_hi : ing ≠ JVal.null) :
    (ing.get "protein" = some (.num q) → ing.get "protein_g" = none →
      (normalizeIngredient hb ing).protein = q) ∧
    (ing.get "protein" = none → ing.get "protein_g" = some (.num q) →
      (normalizeIngredient hb ing).protein = q) ∧
    (ing.get "carbs" = some (.num q) → ing.get "carbs_g" = none →
      (normalizeIngredient hb ing).carbs = q) ∧
    (ing.get "carbs" = none → ing.get "carbs_g" = some (.num q) →
      (normalizeIngredient hb ing).carbs = q) ∧
    (ing.get "fat" = some (.num q) → ing.get "fats_g" = none →
      (normalizeIngredient hb ing).fat = q) ∧
    (ing.get "fat" = none → ing.get "fats_g" = some (.num q) →
      (normalizeIngredient hb ing).fat = q) ∧
    (ing.get "fiber" = some (.num q) → ing.get "fiber_g" = none →
      (normalizeIngredient hb ing).fiber = q) ∧
    (ing.get "fiber" = none → ing.get "fiber_g" = some (.num q) →
      (normalizeIngredient hb ing).fiber = q) ∧
    (ing.get "sugar" = some (.num q) → ing.get "sugar_g" = none →
      (normalizeIngredient hb ing).sugar = q) ∧
    (ing.get "sugar" = none → ing.get "sugar_g" = some (.num q) →
      (normalizeIngredient hb ing).sugar = q) ∧
    (ing.get "sodium_mg" = some (.num q) → ing.get "sodium" = none →
      (normalizeIngredient hb ing).sodium_mg = q) ∧
    (ing.get "sodium_mg" = none → ing.get "sodium" = some (.num q) →
      (normalizeIngredient hb ing).sodium_mg = q) := by
  refine ⟨?_, ?_, ?_, ?_, ?_, ?_, ?_, ?_, ?_, ?_, ?_, ?_⟩ <;> intro h1 h2
  · exact aliasNum _ _ _ (Or.inl ⟨h1, h2⟩)
  · exact aliasNum _ _ _ (Or.inr ⟨h1, h2⟩)
  · exact aliasNum _ _ _ (Or.inl ⟨h1, h2⟩)
  · exact aliasNum _ _ _ (Or.inr ⟨h1, h2⟩)
  · exact aliasNum _ _ _ (Or.inl ⟨h1, h2⟩)
  · exact aliasNum _ _ _ (Or.inr ⟨h1, h2⟩)
  · exact aliasNum _ _ _ (Or.inl ⟨h1, h2⟩)
  · exact aliasNum _ _ _ (Or.inr ⟨h1, h2⟩)
  · exact aliasNum _ _ _ (Or.inl ⟨h1, h2⟩)
  · exact aliasNum _ _ _ (Or.inr ⟨h1, h2⟩)
  · exact aliasNum _ _ _ (Or.inl ⟨h1, h2⟩)
  · exact aliasNum _ _ _ (Or.inr ⟨h1, h2⟩)

/-- Witness for C6: `protein_g: 7` alone yields protein 7, `sodium: 12`
alone yields sodium_mg 12. -/
theorem claim_c6_witness :
    (normalizeIngredient false (JVal.obj [("protein_g", JVal.num 7)])).protein = 7 ∧
    (normalizeIngredient false (JVal.obj [("sodium", JVal.num 12)])).sodium_mg = 12 :=
  ⟨(claim_c6 (JVal.obj [("protein_g", JVal.num 7)]) false 7
      (fun h => JVal.noConfusion h)).2.1 rfl rfl,
   (claim_c6 (JVal.obj [("sodium", JVal.num 12)]) false 12
      (fun h => JVal.noConfusion h)).2.2.2.2.2.2.2.2.2.2.2 rfl rfl⟩

/-- C7 (confirmed): the language value "hebrew" selects the Hebrew system
prompt and the Hebrew default placeholder names for the meal and for each
ingredient; every other language value selects the English prompt and
English placeholders. -/
theorem claim_c7 (language : String) :
    (language = "hebrew" →
      isHebrewLang language = true ∧
      buildAnalysisPrompt (isHebrewLang language) = analysisPromptHebrew ∧
      (normalizeFields (JVal.obj []) (isHebrewLang language)).name = .str "ארוחה לא מזוהה" ∧
      (normalizeIngredient (isHebrewLang language) (JVal.obj [])).name =
        .str "מרכיב לא מזוהה") ∧
    (language ≠ "hebrew" →
      isHebrewLang language = false ∧
      buildAnalysisPrompt (isHebrewLang language) = analysisPromptEnglish ∧
      (normalizeFields (JVal.obj []) (isHebrewLang language)).name = .str "Unknown meal" ∧
      (normalizeIngredient (isHebrewLang language) (JVal.obj [])).name =
        .str "Unknown ingredient") := by
  constructor
  · intro h; subst h
    exact ⟨rfl, rfl, rfl, rfl⟩
  · intro h
    have hf : isHebrewLang language = false := by
      unfold isHebrewLang
      exact beq_eq_false_iff_ne.mpr h
    rw [hf]
    exact ⟨rfl, rfl, rfl, rfl⟩

/-- Witness for C7: concrete selections for "hebrew" and "english". -/
theorem claim_c7_witness :
    buildAnalysisPrompt (isHebrewLang "hebrew") = analysisPromptHebrew ∧
    (normalizeFields (JVal.obj []) (isHebrewLang "hebrew")).name = .str "ארוחה לא מזוהה" ∧
    buildAnalysisPrompt (isHebrewLang "english") = analysisPromptEnglish ∧
    (normalizeIngredient (isHebrewLang "english") (JVal.obj [])).name =
      .str "Unknown ingredient" :=
  ⟨((claim_c7 "hebrew").1 rfl).2.1,
   ((claim_c7 "hebrew").1 rfl).2.2.1,
   ((claim_c7 "english").2 (by decide)).2.1,
   ((claim_c7 "english").2 (by decide)).2.2.2⟩

/-- C8 (confirmed): each operation sends exactly its stated tuning:
analyzeMealImage sends max_tokens 2000 and temperature 0.1,
updateMealAnalysis 1500 and 0.1, and generateText the caller-chosen
max_tokens (defaulting to 1000) and temperature 0.7. -/
theorem claim_c8 (cfg : Config) (remote : ChatRequest → RemoteOutcome)
    (parse : String → Except String JVal) (img lang ut prompt : String)
    (u : Option String) (e : Option (List JVal)) (orig : JVal) (mt : ℕ)
    (hc : configured cfg = true) :
    (analyzeMealImage cfg remote parse img lang u e).sent =
      [analyzeRequest (isHebrewLang lang) img u e] ∧
    (analyzeRequest (isHebrewLang lang) img u e).maxTokens = 2000 ∧
    (analyzeRequest (isHebrewLang lang) img u e).temperature = 0.1 ∧
    (updateMealAnalysis cfg remote parse orig ut lang).sent =
      [updateRequest orig ut (isHebrewLang lang)] ∧
    (updateRequest orig ut (isHebrewLang lang)).maxTokens = 1500 ∧
    (updateRequest orig ut (isHebrewLang lang)).temperature = 0.1 ∧
    (generateText cfg remote prompt mt).sent = [generateRequest prompt mt] ∧
    (generateRequest prompt mt).maxTokens = mt ∧
    (generateRequest prompt mt).temperature = 0.7 ∧
    generateTextDefault cfg remote prompt = generateText cfg remote prompt 1000 ∧
    (generateRequest prompt 1000).maxTokens = 1000 := by
  refine ⟨?_, rfl, rfl, ?_, rfl, rfl, ?_, rfl, rfl, rfl, rfl⟩
  · simp only [analyzeMealImage]
    rw [if_pos hc]
    split <;> rfl
  · simp only [updateMealAnalysis]
    rw [if_pos hc]
    split <;> rfl
  · simp only [generateText]
    rw [if_pos hc]
    split <;> rfl

/-- Witness for C8: concrete request traces and tuning values. -/
theorem claim_c8_witness :
    configured ⟨some "k"⟩ = true ∧
    (generateText ⟨some "k"⟩ (fun _ => .success (some "x")) "p" 321).sent =
      [generateRequest "p" 321] ∧
    (analyzeRequest (isHebrewLang "english") "i" none none).maxTokens = 2000 ∧
    (updateRequest (JVal.obj []) "fix" (isHebrewLang "english")).maxTokens = 1500 :=
  ⟨rfl,
   (claim_c8 ⟨some "k"⟩ (fun _ => .success (some "x")) (fun _ => .error "") "i" "english"
      "fix" "p" none none (JVal.obj []) 321 rfl).2.2.2.2.2.2.1,
   (claim_c8 ⟨some "k"⟩ (fun _ => .success (some "x")) (fun _ => .error "") "i" "english"
      "fix" "p" none none (JVal.obj []) 321 rfl).2.1,
   (claim_c8 ⟨some "k"⟩ (fun _ => .success (some "x")) (fun _ => .error "") "i" "english"
      "fix" "p" none none (JVal.obj []) 321 rfl).2.2.2.2.1⟩

/-- C9 (confirmed): when the provider's response has no text content,
generateText returns the empty string, while both analysis operations raise
the internal empty-response error "No response content from OpenAI", which
their catch blocks surface as their respective user-facing failures. -/
theorem claim_c9 (cfg : Config) (parse : String → Except String JVal)
    (img lang ut prompt : String) (u : Option String) (e : Option (List JVal))
    (orig : JVal) (mt : ℕ) (content : Option String)
    (hc : configured cfg = true) (hct : contentTruthy content = false) :
    (generateText cfg (fun _ => .success content) prompt mt).result = .ok "" ∧
    (∀ req hb, runAnalysisPipeline (fun _ => .success content) parse req hb =
      .error (.err "No response content from OpenAI")) ∧
    (analyzeMealImage cfg (fun _ => .success content) parse img lang u e).result =
      .error (.err "AI analysis failed. Please try again.") ∧
    (updateMealAnalysis cfg (fun _ => .success content) parse orig ut lang).result =
      .error (.err "Failed to update meal analysis") := by
  have hpipe : ∀ req hb, runAnalysisPipeline (fun _ => .success content) parse req hb =
      .error (.err "No response content from OpenAI") := by
    intro req hb
    simp [runAnalysisPipeline, hct]
  refine ⟨?_, hpipe, ?_, ?_⟩
  · simp [generateText, hc, hct]
  · simp only [analyzeMealImage]
    rw [if_pos hc]
    simp only [hpipe]
    rfl
  · simp only [updateMealAnalysis]
    rw [if_pos hc]
    simp only [hpipe]

/-- Witness for C9: a provider returning a response with no content. -/
theorem claim_c9_witness :
    (generateText ⟨some "k"⟩ (fun _ => .success none) "p" 9).result = .ok "" ∧
    (analyzeMealImage ⟨some "k"⟩ (fun _ => .success none) (fun _ => .error "") "i"
        "english" none none).result =
      .error (.err "AI analysis failed. Please try again.") :=
  ⟨(claim_c9 ⟨some "k"⟩ (fun _ => .error "") "i" "english" "fix" "p" none none
      (JVal.obj []) 9 none rfl rfl).1,
   (claim_c9 ⟨some "k"⟩ (fun _ => .error "") "i" "english" "fix" "p" none none
      (JVal.obj []) 9 none rfl rfl).2.2.1⟩

/-- C10 (confirmed): the normalized ingredients field is always a list — it
is empty when the reply's ingredients field is missing or not an array, and
otherwise it is the element-wise normalization of the reply's array, in the
same order and of the same length.  (The element-wise case carries a
no-`null`-element hypothesis, since in JavaScript property access on a
`null` element would throw and no result would be returned.) -/
theorem claim_c10 (r : JVal) (hb : Bool) (_hr : r ≠ JVal.null) :
    ((∀ l, r.get "ingredients" ≠ some (JVal.arr l)) →
      (normalizeFields r hb).ingredients = []) ∧
    (∀ l, r.get "ingredients" = some (JVal.arr l) →
      (l.all fun v => ! v.isNull) = true →
      (normalizeFields r hb).ingredients = l.map (normalizeIngredient hb) ∧
      (normalizeFields r hb).ingredients.length = l.length) := by
  constructor
  · intro h
    simp only [normalizeFields]
  · intro l hl _hnn
    have hmap : (normalizeFields r hb).ingredients = l.map (normalizeIngredient hb) := by
      simp only [normalizeFields]
      rw [hl]
    exact ⟨hmap, by rw [hmap, List.length_map]⟩

/-- Witness for C10: a two-element ingredients array maps to two normalized
ingredients in order, and a non-array ingredients value yields the empty
list. -/
theorem claim_c10_witness :
    (normalizeFields (JVal.obj [("ingredients",
        JVal.arr [JVal.obj [("name", JVal.str "rice")], JVal.obj []])]) false).ingredients =
      List.map (normalizeIngredient false) [JVal.obj [("name", JVal.str "rice")], JVal.obj []] ∧
    (normalizeFields (JVal.obj [("ingredients",
        JVal.arr [JVal.obj [("name", JVal.str "rice")], JVal.obj []])])
        false).ingredients.length = 2 ∧
    (normalizeFields (JVal.obj [("ingredients", JVal.str "x")]) false).ingredients = [] := by
  refine ⟨?_, ?_, ?_⟩
  · exact ((claim_c10 (JVal.obj [("ingredients",
        JVal.arr [JVal.obj [("name", JVal.str "rice")], JVal.obj []])]) false
        (fun h => JVal.noConfusion h)).2
        [JVal.obj [("name", JVal.str "rice")], JVal.obj []] rfl rfl).1
  · exact ((claim_c10 (JVal.obj [("ingredients",
        JVal.arr [JVal.obj [("name", JVal.str "rice")], JVal.obj []])]) false
        (fun h => JVal.noConfusion h)).2
        [JVal.obj [("name", JVal.str "rice")], JVal.obj []] rfl rfl).2
  · refine (claim_c10 (JVal.obj [("ingredients", JVal.str "x")]) false
        (fun h => JVal.noConfusion h)).1 ?_
    intro l h
    rw [show (JVal.obj [("ingredients", JVal.str "x")]).get "ingredients" =
        some (JVal.str "x") from rfl] at h
    simp at h

end Calo
